import Mathlib

/-!
Shallow embedding of the single-page app in
`src/frontend/finance-insight (3).jsx` (the "Ledger" UI).

Machine numbers are modelled as exact rationals (all mock amounts are
integers and the arithmetic over them stays exact in the ranges used);
strings are Lean `String`s.  React state is modelled as explicit record
state; the async `handleAnalyze` is modelled twice, once as a pure
state transformer (its net effect on the App state) and once as a timed
event trace (its `Promise.all`-gated stage transitions).
-/

namespace Ledger

/-- Display-stage enum, `const STAGE = { UPLOAD: 0, PARSING: 1, CLASSIFYING: 2, DONE: 3 }` (line 80). -/
def STAGE.UPLOAD : ℕ := 0

/-- Stage value `PARSING` (line 80). -/
def STAGE.PARSING : ℕ := 1

/-- Stage value `CLASSIFYING` (line 80). -/
def STAGE.CLASSIFYING : ℕ := 2

/-- Stage value `DONE` (line 80). -/
def STAGE.DONE : ℕ := 3

/-- A raw statement line, as in `MOCK_TRANSACTIONS` and the backend's
`transactions` field: `{date, desc, amount, type, category}`. -/
structure Txn where
  date : String
  desc : String
  amount : ℚ
  type : String
  category : String
deriving DecidableEq, Repr

/-- A spending bucket of the Analysis Result: `{name, total, count, pct_of_spend}`. -/
structure SpendCategory where
  name : String
  total : ℚ
  count : ℕ
  pct_of_spend : ℚ
deriving DecidableEq, Repr

/-- The `idle_cash` object of the Analysis Result. -/
structure IdleCash where
  monthly_burn : ℚ
  total_income : ℚ
  balance : ℚ
  investable_surplus : ℚ
  recommendation : String
deriving DecidableEq, Repr

/-- A `subscriptions` entry of the Analysis Result: `{desc, amount, date}`. -/
structure SubscriptionEntry where
  desc : String
  amount : ℚ
  date : String
deriving DecidableEq, Repr

/-- The Analysis Result JSON contract received from the backend (spec §3),
also the shape built by the Dashboard's mock fallback (lines 644-652). -/
structure AnalysisResult where
  transactions : List Txn
  transaction_count : ℕ
  period : String
  idle_cash : IdleCash
  categories : List SpendCategory
  subscriptions : List SubscriptionEntry
deriving DecidableEq, Repr

/-- A selected browser file: only the `name` and MIME `type` attributes are
ever read by this code (line 498). -/
structure FileObj where
  name : String
  type : String
deriving DecidableEq, Repr

/-- Local state of `UploadStage`: `useState(null)` for the file and
`useState("")` for the validation error (lines 491-492). -/
structure UploadState where
  file : Option FileObj
  error : String
deriving DecidableEq, Repr

/-- Initial mount state of `UploadStage` (lines 491-492). -/
def initialUploadState : UploadState := { file := none, error := "" }

/-- The validation error text set by `accept` (line 499). -/
def unsupportedFormatMsg : String :=
  "Unsupported File Format — only PDF bank statements accepted."

/-- JS `String.prototype.endsWith(searchString)`: true when the character
sequence of `search` is a suffix of that of `s`.  (Stated over the
character lists so the kernel can evaluate it on literals.) -/
def jsEndsWith (s search : String) : Bool :=
  List.isSuffixOf search.data s.data

/-- The `accept` callback of `UploadStage` (lines 496-504): given the current
local state and the (possibly absent) file from the input or drop event,
returns the new local state. -/
def accept (s : UploadState) (f : Option FileObj) : UploadState :=
  match f with
  | none => s
  | some f =>
    if !(jsEndsWith f.name ".pdf") && f.type != "application/pdf" then
      { s with error := unsupportedFormatMsg, file := none }
    else
      { s with error := "", file := some f }

/-- The analyse button's `disabled={!file}` attribute (line 578). -/
def analyzeButtonDisabled (s : UploadState) : Bool := s.file.isNone

/-- The analyse button's click guard `file && onAnalyze(file)` (line 578):
the upload request can be issued only when a file is stored. -/
def canIssueUploadRequest (s : UploadState) : Bool := s.file.isSome

/-- The hardcoded `MOCK_TRANSACTIONS` dataset (lines 26-47). -/
def MOCK_TRANSACTIONS : List Txn := [
  { date := "2026-10-01", desc := "Zomato Bangalore",     amount := 685,    type := "Debit",  category := "Dining & Local Eats" },
  { date := "2026-10-02", desc := "Salary Payout — Oct",  amount := 100253, type := "Credit", category := "Income" },
  { date := "2026-10-03", desc := "Varalakshi Tiffins",   amount := 180,    type := "Debit",  category := "Dining & Local Eats" },
  { date := "2026-10-04", desc := "Zerodha Buy Order",    amount := 15000,  type := "Debit",  category := "Investments" },
  { date := "2026-10-05", desc := "Ola Cabs",             amount := 340,    type := "Debit",  category := "Commute & Transport" },
  { date := "2026-10-06", desc := "YouTube Premium",      amount := 189,    type := "Debit",  category := "Subscriptions" },
  { date := "2026-10-07", desc := "Rameshwaram Café",     amount := 520,    type := "Debit",  category := "Dining & Local Eats" },
  { date := "2026-10-08", desc := "BESCOM Electric Bill", amount := 1200,   type := "Debit",  category := "Utilities & Housing" },
  { date := "2026-10-09", desc := "Amazon Order",         amount := 2340,   type := "Debit",  category := "Shopping & Lifestyle" },
  { date := "2026-10-10", desc := "Google One Storage",   amount := 130,    type := "Debit",  category := "Subscriptions" },
  { date := "2026-10-11", desc := "Namma Metro Recharge", amount := 500,    type := "Debit",  category := "Commute & Transport" },
  { date := "2026-10-12", desc := "Swiggy Order",         amount := 430,    type := "Debit",  category := "Dining & Local Eats" },
  { date := "2026-10-13", desc := "LIC Premium",          amount := 4500,   type := "Debit",  category := "Insurance & Protection" },
  { date := "2026-10-14", desc := "Spotify Premium",      amount := 119,    type := "Debit",  category := "Subscriptions" },
  { date := "2026-10-15", desc := "Rapido Bike",          amount := 95,     type := "Debit",  category := "Commute & Transport" },
  { date := "2026-10-16", desc := "Blinkit Groceries",    amount := 1640,   type := "Debit",  category := "Dining & Local Eats" },
  { date := "2026-10-17", desc := "Groww MF SIP",         amount := 5000,   type := "Debit",  category := "Investments" },
  { date := "2026-10-18", desc := "Netflix Subscription", amount := 649,    type := "Debit",  category := "Subscriptions" },
  { date := "2026-10-19", desc := "PhonePe UPI — Mom",    amount := 3000,   type := "Debit",  category := "Family & Transfers" },
  { date := "2026-10-20", desc := "BBMP Property Tax",    amount := 6200,   type := "Debit",  category := "Utilities & Housing" }
]

/-- Currency formatter `fmt` (lines 61-63).  The en-IN digit grouping and
rounding of `toLocaleString` are abstracted to a plain decimal rendering;
no claim depends on the grouping. -/
def fmt (n : ℚ) : String := "₹" ++ toString n

/-- Surplus formula of the standalone `computeAnalytics` helper (line 71):
`const surplus = balance - balance * 0.2`. -/
def computeAnalyticsSurplus (balance : ℚ) : ℚ := balance - balance * 0.2

/-- Surplus formula of the Dashboard's mock fallback (line 641):
`const surplus = balance * 0.8`. -/
def mockFallbackSurplus (balance : ℚ) : ℚ := balance * 0.8

/-- One step of the `catMap` accumulation (lines 72-73 and 642-643):
a JS object keyed by strings keeps insertion order, so an existing key is
updated in place and a new key is appended at the end. -/
def addToCatMap (m : List (String × ℚ)) (k : String) (v : ℚ) : List (String × ℚ) :=
  match m with
  | [] => [(k, v)]
  | (k', v') :: rest =>
    if k' = k then (k, v' + v) :: rest else (k', v') :: addToCatMap rest k v

/-- Stable descending insertion used to model `Array.prototype.sort` with
comparator `(a, b) => b.total - a.total` (line 650): an element goes before
the first strictly smaller total, so equal totals keep insertion order,
matching the stable JS sort. -/
def insertByTotalDesc (c : SpendCategory) : List SpendCategory → List SpendCategory
  | [] => [c]
  | d :: ds => if d.total ≤ c.total then c :: d :: ds else d :: insertByTotalDesc c ds

/-- Stable descending sort by `total` (line 650). -/
def sortByTotalDesc : List SpendCategory → List SpendCategory
  | [] => []
  | c :: cs => insertByTotalDesc c (sortByTotalDesc cs)

/-- The result object of `computeAnalytics` (lines 65-78). -/
structure Analytics where
  totalBurn : ℚ
  totalIncome : ℚ
  balance : ℚ
  surplus : ℚ
  categories : List (String × ℚ)
  subs : List Txn
  subTotal : ℚ
deriving DecidableEq, Repr

/-- Stable descending insertion for the `{name, value}` pairs of
`computeAnalytics`, modelling `sort((a, b) => b.value - a.value)` (line 74). -/
def insertByValueDesc (c : String × ℚ) : List (String × ℚ) → List (String × ℚ)
  | [] => [c]
  | d :: ds => if d.2 ≤ c.2 then c :: d :: ds else d :: insertByValueDesc c ds

/-- Stable descending sort of `{name, value}` pairs by `value` (line 74). -/
def sortByValueDesc : List (String × ℚ) → List (String × ℚ)
  | [] => []
  | c :: cs => insertByValueDesc c (sortByValueDesc cs)

/-- The standalone `computeAnalytics` helper (lines 65-78); its
`categories` entries are `{name, value}` pairs sorted descending by value. -/
def computeAnalytics (txns : List Txn) : Analytics :=
  let debits := txns.filter (fun t => t.type == "Debit")
  let credits := txns.filter (fun t => t.type == "Credit")
  let totalBurn := debits.foldl (fun s t => s + t.amount) 0
  let totalIncome := credits.foldl (fun s t => s + t.amount) 0
  let balance := totalIncome - totalBurn
  let surplus := computeAnalyticsSurplus balance
  let catMap := debits.foldl (fun m t => addToCatMap m t.category t.amount) []
  let categories := sortByValueDesc catMap
  let subs := debits.filter (fun t => t.category == "Subscriptions")
  let subTotal := subs.foldl (fun s t => s + t.amount) 0
  { totalBurn := totalBurn, totalIncome := totalIncome, balance := balance,
    surplus := surplus, categories := categories, subs := subs, subTotal := subTotal }

/-- The Dashboard's mock fallback Analysis Result (lines 634-653), built
from `MOCK_TRANSACTIONS` when no backend `data` is present.  The
`recommendation` string's `toLocaleString` grouping is abstracted by
`fmt`; no claim depends on its exact text. -/
def mockFallbackAnalysis : AnalysisResult :=
  let mock := MOCK_TRANSACTIONS
  let debits := mock.filter (fun t => t.type == "Debit")
  let credits := mock.filter (fun t => t.type == "Credit")
  let totalBurn := debits.foldl (fun s t => s + t.amount) 0
  let totalIncome := credits.foldl (fun s t => s + t.amount) 0
  let balance := totalIncome - totalBurn
  let surplus := mockFallbackSurplus balance
  let catMap := debits.foldl (fun m t => addToCatMap m t.category t.amount) []
  { transactions := mock,
    transaction_count := mock.length,
    period := "October 2026",
    idle_cash := {
      monthly_burn := totalBurn, total_income := totalIncome, balance := balance,
      investable_surplus := surplus,
      recommendation := "You have " ++ fmt surplus ++
        " in investable surplus. Moving to a Liquid Fund could yield 7% annually vs 3% in savings." },
    categories := sortByTotalDesc (catMap.map (fun p =>
      { name := p.1, total := p.2, count := 1, pct_of_spend := p.2 / totalBurn * 100 })),
    subscriptions := (mock.filter (fun t => t.category == "Subscriptions")).map
      (fun t => { desc := t.desc, amount := t.amount, date := t.date }) }

/-- The analysis object the Dashboard renders (lines 632-653): the backend
`data` when present, otherwise the mock fallback. -/
def dashboardAnalysis (data : Option AnalysisResult) : AnalysisResult :=
  match data with
  | some d => d
  | none => mockFallbackAnalysis

/-- Numeric value rendered in the "Net Balance" KPI (lines 656 and 667):
the card shows `fmt(balance)` where `balance` is destructured from
`analysis.idle_cash`. -/
def netBalanceKPIValue (a : AnalysisResult) : ℚ := a.idle_cash.balance

/-- The bar-scaling denominator `const maxCat = categories[0]?.total || 1`
(line 657): optional chaining yields `undefined` on an empty list and `||`
replaces any falsy value (`undefined` or `0`) with `1`. -/
def maxCat (categories : List SpendCategory) : ℚ :=
  match categories with
  | [] => 1
  | c :: _ => if c.total = 0 then 1 else c.total

/-- Rendered width (in percent) of one category bar,
`width: (c.total / maxCat) * 100 + "%"` (line 752). -/
def catBarWidth (categories : List SpendCategory) (c : SpendCategory) : ℚ :=
  c.total / maxCat categories * 100

/-- The fixed fallback text of the "Top Spend Bucket" insight (line 685). -/
def noSpendingMsg : String := "No spending patterns detected yet."

/-- The "Top Spend Bucket" insight text (lines 683-685):
`categories[0] ? richText : "No spending patterns detected yet."`.
The truthy branch's `toFixed(1)` rounding is abstracted by `fmt`. -/
def topSpendInsightText (categories : List SpendCategory) : String :=
  match categories with
  | [] => noSpendingMsg
  | c :: _ =>
    "<strong>" ++ c.name ++ "</strong> is your largest category at <strong>" ++
      fmt c.total ++ "</strong> — <strong>" ++ toString c.pct_of_spend ++
      "%</strong> of total outgoings."

/-- App-level React state (lines 831-833). -/
structure AppState where
  stage : ℕ
  analysisData : Option AnalysisResult
  apiError : String
deriving DecidableEq, Repr

/-- Initial App state: `useState(STAGE.UPLOAD)`, `useState(null)`,
`useState("")` (lines 831-833). -/
def initialAppState : AppState :=
  { stage := STAGE.UPLOAD, analysisData := none, apiError := "" }

/-- How `response.json()` resolves on the error path (line 855): either the
body is not JSON (the `.catch` supplies a fixed detail — see
`errorDetailMessage`), or it is JSON whose `detail` field is absent or a
string. -/
inductive ErrorBody where
  | notJson : ErrorBody
  | jsonDetail (detail : Option String) : ErrorBody
deriving DecidableEq, Repr

/-- A settled backend response to the upload request, with the parts of
the Fetch API the code reads: `ok`, `status`, and the two possible uses of
`response.json()` — the Analysis Result on the success path and the error
body on the failure path. -/
structure BackendResponse where
  ok : Bool
  status : Nat
  data : AnalysisResult
  errBody : ErrorBody
deriving Repr

/-- Message of the error thrown on a non-ok response (lines 855-856):
`err = await response.json().catch(() => ({detail: "Unknown error"}))`
then `err.detail || "Server error " + response.status` (an absent or
empty `detail` is falsy). -/
def errorDetailMessage (b : ErrorBody) (status : Nat) : String :=
  match b with
  | .notJson => "Unknown error"
  | .jsonDetail none => "Server error " ++ toString status
  | .jsonDetail (some d) => if d = "" then "Server error " ++ toString status else d

/-- The catch clause's message fallback (line 869):
`err.message || "Something went wrong. Is the backend running?"`. -/
def catchMessage (m : String) : String :=
  if m = "" then "Something went wrong. Is the backend running?" else m

/-- Net effect of `handleAnalyze` (lines 835-872) on the App state once the
fetch has settled with `resp`.  It mirrors the source's control flow:
clear the api error and enter PARSING, await the fetch, enter CLASSIFYING,
then either store the data and enter DONE, or throw the detail message,
which the catch clause turns into an api error and a return to UPLOAD.
Timing is modelled separately by `handleAnalyzeTimeline`. -/
def handleAnalyze (s : AppState) (resp : BackendResponse) : AppState :=
  let s := { s with apiError := "", stage := STAGE.PARSING }
  let s := { s with stage := STAGE.CLASSIFYING }
  if resp.ok then
    { s with analysisData := some resp.data, stage := STAGE.DONE }
  else
    { s with apiError := catchMessage (errorDetailMessage resp.errBody resp.status),
             stage := STAGE.UPLOAD }

/-- The artificial minimum display time of the PARSING stage, from
`new Promise(r => setTimeout(r, 1500))` (line 849). -/
def parsingHoldMs : ℕ := 1500

/-- The artificial minimum display time of the CLASSIFYING stage, from
`new Promise(r => setTimeout(r, 1000))` (line 862). -/
def classifyingHoldMs : ℕ := 1000

/-- Resolution time of `Promise.all` over two awaited durations: both must
settle (lines 844-850 and 860-863). -/
def promiseAllTime (a b : ℕ) : ℕ := max a b

/-- Timed event trace of a successful `handleAnalyze` run (lines 835-867),
as (milliseconds since submission, stage entered) pairs.  `fetchMs` is the
latency of the fetch, `jsonMs` that of `response.json()`; each stage
transition happens when the corresponding `Promise.all` join resolves. -/
def handleAnalyzeTimeline (fetchMs jsonMs : ℕ) : List (ℕ × ℕ) :=
  let tParsing := 0
  let tClassifying := tParsing + promiseAllTime fetchMs parsingHoldMs
  let tDone := tClassifying + promiseAllTime jsonMs classifyingHoldMs
  [(tParsing, STAGE.PARSING), (tClassifying, STAGE.CLASSIFYING), (tDone, STAGE.DONE)]

/-- The Dashboard's `onReset` callback (line 895):
`() => { setStage(STAGE.UPLOAD); setAnalysisData(null); }`. -/
def onReset (s : AppState) : AppState :=
  { s with stage := STAGE.UPLOAD, analysisData := none }

/-- An Analysis Result whose `balance` field disagrees with
`total_income - monthly_burn`; nothing in the Dashboard validates backend
data, so it renders this object as-is. -/
def inconsistentResult : AnalysisResult :=
  { transactions := [], transaction_count := 0, period := "",
    idle_cash := { monthly_burn := 3, total_income := 10, balance := 5,
                   investable_surplus := 0, recommendation := "" },
    categories := [], subscriptions := [] }

/-- The two-category example of spec §8: `[{total:100},{total:50}]`. -/
def demoCats : List SpendCategory :=
  [{ name := "A", total := 100, count := 1, pct_of_spend := 0 },
   { name := "B", total := 50, count := 1, pct_of_spend := 0 }]

/-- A non-PDF sample file (wrong extension and wrong MIME type). -/
def txtFile : FileObj := { name := "statement.txt", type := "text/plain" }

/-- A sample file whose name ends in `.pdf` but whose MIME type is not
`application/pdf`. -/
def pdfNameOnlyFile : FileObj := { name := "statement.pdf", type := "text/plain" }

/-- A sample App state mid-session: the dashboard is shown with the mock
analysis on screen. -/
def doneAppState : AppState :=
  { stage := STAGE.DONE, analysisData := some mockFallbackAnalysis, apiError := "" }

/-- A sample non-2xx backend response carrying a JSON `detail` string. -/
def failedResponse : BackendResponse :=
  { ok := false, status := 422, data := mockFallbackAnalysis,
    errBody := ErrorBody.jsonDetail (some "Could not parse PDF") }

/-- Helper: the generic non-2xx fallback message is never empty. -/
theorem serverError_ne_empty (status : Nat) :
    ("Server error " ++ toString status) ≠ "" := by
  intro h
  have hlen := congrArg String.length h
  simp [String.length_append] at hlen
  exact absurd hlen.1 (by decide)

/-- Helper: the message thrown on the non-ok path is never the empty
string, so the catch clause's `||` fallback leaves it unchanged. -/
theorem errorDetailMessage_ne_empty (b : ErrorBody) (status : Nat) :
    errorDetailMessage b status ≠ "" := by
  cases b with
  | notJson => simp [errorDetailMessage]
  | jsonDetail detail =>
    cases detail with
    | none => simpa [errorDetailMessage] using serverError_ne_empty status
    | some d =>
      by_cases hd : d = "" <;>
        simp [errorDetailMessage, hd, serverError_ne_empty status]

/-- C1 counterexample: the Dashboard renders `idle_cash.balance` in the
"Net Balance" KPI, so for a backend Analysis Result whose `balance` field
is not `total_income - monthly_burn` the displayed value differs from
income minus burn. -/
theorem netBalanceKPI_counterexample :
    netBalanceKPIValue inconsistentResult
      ≠ inconsistentResult.idle_cash.total_income
          - inconsistentResult.idle_cash.monthly_burn := by
  norm_num [netBalanceKPIValue, inconsistentResult]

/-- C1 (amended): the "Net Balance" KPI renders the `idle_cash.balance`
field, so it equals `total_income - monthly_burn` exactly for every
Analysis Result whose `balance` field satisfies that equation — in
particular the mock fallback dataset, whose balance is computed that way. -/
theorem netBalanceKPI_eq_income_sub_burn (a : AnalysisResult)
    (h : a.idle_cash.balance
        = a.idle_cash.total_income - a.idle_cash.monthly_burn) :
    netBalanceKPIValue a
      = a.idle_cash.total_income - a.idle_cash.monthly_burn := by
  simpa [netBalanceKPIValue] using h

/-- C1 witness: the amended statement instantiated at the Dashboard's mock
fallback Analysis Result. -/
theorem netBalanceKPI_mock_witness :
    netBalanceKPIValue mockFallbackAnalysis
      = mockFallbackAnalysis.idle_cash.total_income
          - mockFallbackAnalysis.idle_cash.monthly_burn :=
  netBalanceKPI_eq_income_sub_burn mockFallbackAnalysis
    (by simp [mockFallbackAnalysis, MOCK_TRANSACTIONS, mockFallbackSurplus, fmt, addToCatMap])

/-- C2: for every non-2xx backend response, `handleAnalyze` returns the
stage to `STAGE.UPLOAD`, leaves `analysisData` exactly as it was before
the attempt, and sets the visible error to the backend's JSON `detail`
string when one is present (with the generic "Unknown error" when the
body is not JSON, and "Server error N" when the JSON carries no detail). -/
theorem handleAnalyze_non2xx (s : AppState) (resp : BackendResponse)
    (hok : resp.ok = false) :
    (handleAnalyze s resp).stage = STAGE.UPLOAD
  ∧ (handleAnalyze s resp).analysisData = s.analysisData
  ∧ (∀ d, resp.errBody = ErrorBody.jsonDetail (some d) → d ≠ "" →
      (handleAnalyze s resp).apiError = d)
  ∧ (resp.errBody = ErrorBody.notJson →
      (handleAnalyze s resp).apiError = "Unknown error")
  ∧ (resp.errBody = ErrorBody.jsonDetail none →
      (handleAnalyze s resp).apiError = "Server error " ++ toString resp.status) := by
  refine ⟨?_, ?_, ?_, ?_, ?_⟩
  · simp [handleAnalyze, hok]
  · simp [handleAnalyze, hok]
  · intro d hd hne
    simp [handleAnalyze, hok, catchMessage, hd, errorDetailMessage, hne]
  · intro hb
    simp [handleAnalyze, hok, catchMessage, hb, errorDetailMessage]
  · intro hb
    simp [handleAnalyze, hok, catchMessage, hb, errorDetailMessage,
      serverError_ne_empty resp.status]

/-- C2 witness: a concrete 422 response with JSON detail, issued while the
dashboard is showing the mock analysis. -/
theorem handleAnalyze_non2xx_witness :
    (handleAnalyze doneAppState failedResponse).stage = STAGE.UPLOAD
  ∧ (handleAnalyze doneAppState failedResponse).analysisData
      = some mockFallbackAnalysis
  ∧ (handleAnalyze doneAppState failedResponse).apiError
      = "Could not parse PDF" := by
  have h := handleAnalyze_non2xx doneAppState failedResponse rfl
  exact ⟨h.1, h.2.1, h.2.2.1 "Could not parse PDF" rfl (by decide)⟩

/-- C3: on the success path `handleAnalyze` enters the stages in the
strict order UPLOAD (the initial state, from which alone the upload screen
can invoke it), PARSING at submission time, CLASSIFYING when both the
fetch and the 1.5s timer have settled, and DONE when both the body parse
and the 1s timer have settled; the stage numbers are consecutive (no skip
or reversal) and the PARSING and CLASSIFYING stages stay on screen at
least 1500 ms and 1000 ms respectively, for every backend latency
including zero. -/
theorem handleAnalyze_stage_timeline (fetchMs jsonMs : ℕ) :
    initialAppState.stage = STAGE.UPLOAD
  ∧ (∃ t1 t2 : ℕ,
      handleAnalyzeTimeline fetchMs jsonMs
          = [(0, STAGE.PARSING), (t1, STAGE.CLASSIFYING), (t2, STAGE.DONE)]
        ∧ 0 < t1 ∧ t1 < t2 ∧ 1500 ≤ t1 - 0 ∧ 1000 ≤ t2 - t1)
  ∧ STAGE.PARSING = STAGE.UPLOAD + 1
  ∧ STAGE.CLASSIFYING = STAGE.PARSING + 1
  ∧ STAGE.DONE = STAGE.CLASSIFYING + 1 := by
  refine ⟨rfl,
    ⟨0 + promiseAllTime fetchMs parsingHoldMs,
     0 + promiseAllTime fetchMs parsingHoldMs + promiseAllTime jsonMs classifyingHoldMs,
     rfl, ?_, ?_, ?_, ?_⟩, rfl, rfl, rfl⟩ <;>
    simp [promiseAllTime, parsingHoldMs, classifyingHoldMs]

/-- C4: a file whose name does not end in ".pdf" and whose MIME type is
not "application/pdf" is rejected by `accept`: the validation error is
set, the stored file is cleared, the analyse button is disabled, and no
upload request can be issued. -/
theorem accept_rejects_non_pdf (s : UploadState) (f : FileObj)
    (h1 : jsEndsWith f.name ".pdf" = false) (h2 : f.type ≠ "application/pdf") :
    accept s (some f) = { file := none, error := unsupportedFormatMsg }
  ∧ analyzeButtonDisabled (accept s (some f)) = true
  ∧ canIssueUploadRequest (accept s (some f)) = false := by
  refine ⟨?_, ?_, ?_⟩ <;>
    simp [accept, h1, h2, analyzeButtonDisabled, canIssueUploadRequest]

/-- C4 witness: a `.txt` file with MIME type `text/plain` is rejected. -/
theorem accept_rejects_non_pdf_witness :
    accept initialUploadState (some txtFile)
        = { file := none, error := unsupportedFormatMsg }
  ∧ analyzeButtonDisabled (accept initialUploadState (some txtFile)) = true
  ∧ canIssueUploadRequest (accept initialUploadState (some txtFile)) = false :=
  accept_rejects_non_pdf initialUploadState txtFile (by decide) (by decide)

/-- C9: the local validation is a disjunction — `accept` stores the file
with no error whenever the name ends in ".pdf" OR the MIME type equals
"application/pdf"; either check alone suffices, so a `.pdf`-named file
with a non-PDF MIME type is accepted and submittable. -/
theorem accept_is_disjunction (s : UploadState) (f : FileObj)
    (h : jsEndsWith f.name ".pdf" = true ∨ f.type = "application/pdf") :
    accept s (some f) = { file := some f, error := "" }
  ∧ canIssueUploadRequest (accept s (some f)) = true := by
  rcases h with h | h <;>
    exact ⟨by simp [accept, h], by simp [accept, h, canIssueUploadRequest]⟩

/-- C9 witness: a file named `statement.pdf` with MIME type `text/plain`
is stored without error and the upload becomes possible. -/
theorem accept_is_disjunction_witness :
    accept initialUploadState (some pdfNameOnlyFile)
        = { file := some pdfNameOnlyFile, error := "" }
  ∧ canIssueUploadRequest (accept initialUploadState (some pdfNameOnlyFile)) = true :=
  accept_is_disjunction initialUploadState pdfNameOnlyFile (Or.inl (by decide))

/-- C5 counterexample to the claimed difference: over exact arithmetic the
mock fallback's `balance * 0.8` and the analytics helper's
`balance - balance * 0.2` agree on every balance, so no balance value
makes the two computations return different results. -/
theorem surplus_formulas_never_differ :
    ¬ ∃ b : ℚ, mockFallbackSurplus b ≠ computeAnalyticsSurplus b := by
  rintro ⟨b, hb⟩
  apply hb
  unfold mockFallbackSurplus computeAnalyticsSurplus
  ring

/-- C5 (amended): the two surplus formulas are written differently in the
source but are extensionally equal: for every balance,
`balance * 0.8 = balance - balance * 0.2`. -/
theorem surplus_formulas_agree (b : ℚ) :
    mockFallbackSurplus b = computeAnalyticsSurplus b := by
  unfold mockFallbackSurplus computeAnalyticsSurplus
  ring

/-- C6: in the Analysis Result built by the Dashboard's mock fallback
(rendered when no backend data is present), the category totals sum to
`idle_cash.monthly_burn`; the burn is the sum of Debit amounts, the
income the sum of Credit amounts, and the balance is income minus burn. -/
theorem mockFallback_invariants :
    (dashboardAnalysis none).categories.foldl (fun s c => s + c.total) 0
        = (dashboardAnalysis none).idle_cash.monthly_burn
  ∧ (dashboardAnalysis none).idle_cash.monthly_burn
        = (MOCK_TRANSACTIONS.filter (fun t => t.type == "Debit")).foldl
            (fun s t => s + t.amount) 0
  ∧ (dashboardAnalysis none).idle_cash.total_income
        = (MOCK_TRANSACTIONS.filter (fun t => t.type == "Credit")).foldl
            (fun s t => s + t.amount) 0
  ∧ (dashboardAnalysis none).idle_cash.balance
        = (dashboardAnalysis none).idle_cash.total_income
            - (dashboardAnalysis none).idle_cash.monthly_burn := by
  refine ⟨?_, ?_, ?_, ?_⟩
  · simp [dashboardAnalysis, mockFallbackAnalysis, MOCK_TRANSACTIONS,
      mockFallbackSurplus, fmt, addToCatMap, sortByTotalDesc, insertByTotalDesc]
    norm_num [insertByTotalDesc]
  · simp [dashboardAnalysis, mockFallbackAnalysis, MOCK_TRANSACTIONS,
      mockFallbackSurplus, fmt, addToCatMap, sortByTotalDesc, insertByTotalDesc]
  · simp [dashboardAnalysis, mockFallbackAnalysis, MOCK_TRANSACTIONS,
      mockFallbackSurplus, fmt, addToCatMap, sortByTotalDesc, insertByTotalDesc]
  · simp [dashboardAnalysis, mockFallbackAnalysis, MOCK_TRANSACTIONS,
      mockFallbackSurplus, fmt, addToCatMap, sortByTotalDesc, insertByTotalDesc]

/-- C7: when the first category has the largest total (and, being the
largest spending total of a non-degenerate breakdown, a positive one),
every bar renders at exactly `total / first total * 100` percent of the
card width, since `maxCat` is then the first total itself. -/
theorem catBarWidth_proportional (cs : List SpendCategory)
    (c0 : SpendCategory) (rest : List SpendCategory) (hcs : cs = c0 :: rest)
    (hpos : 0 < c0.total) (hmax : ∀ c ∈ cs, c.total ≤ c0.total) :
    ∀ c ∈ cs, catBarWidth cs c = c.total / c0.total * 100 := by
  intro c _
  subst hcs
  simp [catBarWidth, maxCat, hpos.ne']

/-- C7 witness: for categories `[{total:100},{total:50}]` the second bar
renders at exactly 50%, half of the first bar's 100%. -/
theorem catBarWidth_demo_witness :
    catBarWidth demoCats { name := "B", total := 50, count := 1, pct_of_spend := 0 } = 50 := by
  have h := catBarWidth_proportional demoCats
      { name := "A", total := 100, count := 1, pct_of_spend := 0 }
      [{ name := "B", total := 50, count := 1, pct_of_spend := 0 }]
      rfl (by norm_num)
      (by intro c hc; simp [demoCats] at hc; rcases hc with rfl | rfl <;> norm_num)
      { name := "B", total := 50, count := 1, pct_of_spend := 0 }
      (by simp [demoCats])
  rw [h]
  norm_num

/-- C8: resetting from the dashboard puts the stage back to
`STAGE.UPLOAD` and clears `analysisData`; the remounted upload screen
starts from its initial local state, with no stored file, no validation
error, and the analyse button disabled. -/
theorem onReset_clears_state (s : AppState) :
    (onReset s).stage = STAGE.UPLOAD
  ∧ (onReset s).analysisData = none
  ∧ initialUploadState.file = none
  ∧ initialUploadState.error = ""
  ∧ analyzeButtonDisabled initialUploadState = true := by
  refine ⟨rfl, rfl, rfl, rfl, rfl⟩

/-- C10: on an empty category list the bar-scaling denominator falls back
to 1 — indeed `maxCat` is never 0 for any input, so the bar-width division
never divides by zero — and the top-spend insight falls back to the fixed
"no spending patterns" message instead of reading a missing first
element. -/
theorem maxCat_empty_safe :
    maxCat [] = 1
  ∧ (∀ cs : List SpendCategory, maxCat cs ≠ 0)
  ∧ topSpendInsightText [] = noSpendingMsg := by
  refine ⟨rfl, ?_, rfl⟩
  intro cs
  cases cs with
  | nil => norm_num [maxCat]
  | cons c cs' =>
    by_cases h : c.total = 0 <;> simp [maxCat, h]

end Ledger
